import Mathlib

/-!
Verification of the simplehash event-encoding pipeline.

This file shallowly embeds the Go package `simplehash` (the DataTrails /
RKVST "simple hash" canonical event encoding): the v2 and v3 schema event
records, the bencode canonical serialization, the SHA-256 hash
accumulator with its options (accumulate, prefix bytes, id-commitment,
public-from-permissioned, as-confirmed, committed-timestamp), and the
JSON entry points.  Functions of the repository itself are translated
from the source files; external collaborators (the Go standard library
SHA-256 and JSON codec, the protobuf flat marshaler, the bencode
library, and the identity translator from the API support library) are
modelled from the specification, and each such definition carries a doc
comment saying so.  Bytes are `Nat` (0..255), byte strings are
`List Nat`, and machine words are `Nat` reduced modulo 2^32 / 2^64 where
the source wraps.
-/

namespace SimpleHash

set_option maxRecDepth 8000000

/-- ASCII bytes of a Lean string literal. All strings appearing in the
repository's data and tests are ASCII, where UTF-8 bytes coincide with
code points. -/
def ascii (s : String) : List Nat := s.data.map Char.toNat

/-- Decimal digit characters of a natural number, most significant first,
with explicit fuel so that the definition is structurally recursive and
kernel-reducible. -/
def natDecAux : Nat → Nat → List Nat
  | 0, _ => []
  | _ + 1, 0 => []
  | fuel + 1, n => natDecAux fuel (n / 10) ++ [48 + n % 10]

/-- Decimal ASCII representation of a natural number (no leading zeros,
except the single digit for zero itself). -/
def natDec (n : Nat) : List Nat :=
  match n with
  | 0 => [48]
  | m + 1 => natDecAux (m + 2) (m + 1)

/-- Big-endian byte serialization of `n` into exactly `k` bytes
(modelled from the spec: `encoding/binary` big-endian byte order). -/
def beBytes : Nat → Nat → List Nat
  | 0, _ => []
  | k + 1, n => beBytes k (n / 256) ++ [n % 256]

/-- Value of a single lowercase-hex ASCII digit. -/
def hexVal (c : Nat) : Nat :=
  if 48 ≤ c ∧ c ≤ 57 then c - 48
  else if 97 ≤ c ∧ c ≤ 102 then c - 87
  else 0

/-- Decode a lowercase hex string (as used by the Go tests' expected
digests) into its bytes. -/
def hexBytesAux : List Nat → List Nat
  | h :: l :: rest => (hexVal h * 16 + hexVal l) :: hexBytesAux rest
  | _ => []

/-- Bytes of a lowercase-hex string literal. -/
def hexBytes (s : String) : List Nat := hexBytesAux (ascii s)

/-! ## SHA-256, modelled from the spec (FIPS 180-4, Go `crypto/sha256`).
Words are `Nat` below 2^32; every addition and shift is reduced modulo
2^32 explicitly. -/

/-- 2^32, the word modulus. -/
def M32 : Nat := 4294967296

/-- Right-rotation of a 32-bit word by `n` bits. -/
def rotr (n x : Nat) : Nat := (x >>> n) ||| ((x <<< (32 - n)) % M32)

/-- Bitwise choice function of SHA-256. -/
def chf (x y z : Nat) : Nat := (x &&& y) ^^^ ((x ^^^ 4294967295) &&& z)

/-- Bitwise majority function of SHA-256. -/
def majf (x y z : Nat) : Nat := (x &&& y) ^^^ (x &&& z) ^^^ (y &&& z)

/-- Big sigma-0 of SHA-256. -/
def bsig0 (x : Nat) : Nat := rotr 2 x ^^^ rotr 13 x ^^^ rotr 22 x

/-- Big sigma-1 of SHA-256. -/
def bsig1 (x : Nat) : Nat := rotr 6 x ^^^ rotr 11 x ^^^ rotr 25 x

/-- Small sigma-0 of SHA-256. -/
def ssig0 (x : Nat) : Nat := rotr 7 x ^^^ rotr 18 x ^^^ (x >>> 3)

/-- Small sigma-1 of SHA-256. -/
def ssig1 (x : Nat) : Nat := rotr 17 x ^^^ rotr 19 x ^^^ (x >>> 10)

/-- The eight SHA-256 initial hash values. -/
def shaInit : List Nat :=
  [1779033703, 3144134277, 1013904242, 2773480762,
   1359893119, 2600822924, 528734635, 1541459225]

/-- The 64 SHA-256 round constants. -/
def shaK : List Nat :=
  [1116352408, 1899447441, 3049323471, 3921009573, 961987163, 1508970993, 2453635748, 2870763221,
   3624381080, 310598401, 607225278, 1426881987, 1925078388, 2162078206, 2614888103, 3248222580,
   3835390401, 4022224774, 264347078, 604807628, 770255983, 1249150122, 1555081692, 1996064986,
   2554220882, 2821834349, 2952996808, 3210313671, 3336571891, 3584528711, 113926993, 338241895,
   666307205, 773529912, 1294757372, 1396182291, 1695183700, 1986661051, 2177026350, 2456956037,
   2730485921, 2820302411, 3259730800, 3345764771, 3516065817, 3600352804, 4094571909, 275423344,
   430227734, 506948616, 659060556, 883997877, 958139571, 1322822218, 1537002063, 1747873779,
   1955562222, 2024104815, 2227730452, 2361852424, 2428436474, 2756734187, 3204031479, 3329325298]

/-- SHA-256 message padding: append the 0x80 byte, zero bytes to 56 mod
64, then the 64-bit big-endian bit length. -/
def padBytes (msg : List Nat) : List Nat :=
  msg ++ [128] ++ List.replicate ((120 - (msg.length + 1) % 64) % 64) 0
      ++ beBytes 8 ((msg.length * 8) % 18446744073709551616)

/-- Group bytes into big-endian 32-bit words. -/
def bytesToWords : List Nat → List Nat
  | a :: b :: c :: d :: rest => (((a * 256 + b) * 256 + c) * 256 + d) :: bytesToWords rest
  | _ => []

/-- Group a word list into 16-word blocks. -/
def chunk16 : List Nat → List (List Nat)
  | w0 :: w1 :: w2 :: w3 :: w4 :: w5 :: w6 :: w7 ::
    w8 :: w9 :: w10 :: w11 :: w12 :: w13 :: w14 :: w15 :: rest =>
      [w0, w1, w2, w3, w4, w5, w6, w7, w8, w9, w10, w11, w12, w13, w14, w15] :: chunk16 rest
  | _ => []

/-- Message-schedule extension: produce `fuel` further words from a
sliding window of the previous sixteen. -/
def schedExt : Nat → List Nat → List Nat
  | 0, _ => []
  | fuel + 1, w0 :: w1 :: w2 :: w3 :: w4 :: w5 :: w6 :: w7 ::
              w8 :: w9 :: w10 :: w11 :: w12 :: w13 :: w14 :: w15 :: _ =>
      let nxt := (ssig1 w14 + w9 + ssig0 w1 + w0) % M32
      nxt :: schedExt fuel
        [w1, w2, w3, w4, w5, w6, w7, w8, w9, w10, w11, w12, w13, w14, w15, nxt]
  | _ + 1, _ => []

/-- The 64 SHA-256 rounds over the schedule and round constants. -/
def rounds : List Nat → List Nat → List Nat → List Nat
  | kc :: ks, w :: ws, a :: b :: c :: d :: e :: f :: g :: h :: _ =>
      let t1 := (h + bsig1 e + chf e f g + kc + w) % M32
      let t2 := (bsig0 a + majf a b c) % M32
      rounds ks ws [(t1 + t2) % M32, a, b, c, (d + t1) % M32, e, f, g]
  | _, _, st => st

/-- One SHA-256 compression-function application. -/
def compressBlock (st block : List Nat) : List Nat :=
  let ws := block ++ schedExt 48 block
  let st' := rounds shaK ws st
  List.zipWith (fun x y => (x + y) % M32) st st'

/-- SHA-256 digest of a byte string, as its 32 digest bytes. -/
def sha256 (msg : List Nat) : List Nat :=
  let final := (chunk16 (bytesToWords (padBytes msg))).foldl compressBlock shaInit
  final.foldr (fun w acc => beBytes 4 w ++ acc) []

/-! ## JSON values.
The Go pipeline marshals the schema record to JSON, re-parses it into a
generic `any` value and bencodes that value.  `Jv` is the generic JSON
value (Go `any` after `encoding/json` decoding): strings and object keys
are byte strings, numbers keep their decimal lexeme. -/

mutual
/-- A generic JSON value as decoded by the Go pipeline into `any`. -/
inductive Jv : Type where
  | null : Jv
  | boolv : Bool → Jv
  | num : List Nat → Jv
  | str : List Nat → Jv
  | arr : Jlist → Jv
  | obj : Jobj → Jv
  deriving DecidableEq
/-- Element list of a JSON array. -/
inductive Jlist : Type where
  | nil : Jlist
  | cons : Jv → Jlist → Jlist
  deriving DecidableEq
/-- Key/value entries of a JSON object, in construction order. -/
inductive Jobj : Type where
  | nil : Jobj
  | cons : List Nat → Jv → Jobj → Jobj
  deriving DecidableEq
end

/-- Build a `Jobj` from an association list, preserving order. -/
def toJobj : List (List Nat × Jv) → Jobj
  | [] => Jobj.nil
  | p :: t => Jobj.cons p.1 p.2 (toJobj t)

/-- Byte-wise lexicographic comparison of byte strings, the order the
bencode dictionary sort uses (modelled from the spec: keys sorted by
byte-wise comparison). -/
def bytesLe : List Nat → List Nat → Bool
  | [], _ => true
  | _ :: _, [] => false
  | a :: as, b :: bs => if a < b then true else if b < a then false else bytesLe as bs

/-- Order on encoded key/value pairs by byte-wise comparison of keys. -/
def keyLe (p q : List Nat × List Nat) : Prop := bytesLe p.1 q.1 = true

instance : DecidableRel keyLe := fun p q => inferInstanceAs (Decidable (bytesLe p.1 q.1 = true))

/-- Length-prefixed bencode byte-string encoding. -/
def encStr (s : List Nat) : List Nat := natDec s.length ++ [58] ++ s

/-- Sort encoded dictionary entries by byte-wise key order. -/
def sortPairs (l : List (List Nat × List Nat)) : List (List Nat × List Nat) :=
  List.insertionSort keyLe l

mutual
/-- Bencode serialization of a JSON value (modelled from the spec:
strings are length-prefixed, integers sit between the i/e sentinels,
lists between l/e in given order, dictionaries between d/e with keys
sorted byte-wise). -/
def Jv.enc : Jv → List Nat
  | .null => [48, 58]
  | .boolv b => if b then [105, 49, 101] else [105, 48, 101]
  | .num lex => [105] ++ lex ++ [101]
  | .str s => encStr s
  | .arr l => [108] ++ Jlist.enc l ++ [101]
  | .obj o => [100] ++ ((sortPairs (Jobj.encPairs o)).map
      (fun p => encStr p.1 ++ p.2)).flatten ++ [101]
/-- Bencode serialization of array elements in order. -/
def Jlist.enc : Jlist → List Nat
  | .nil => []
  | .cons v tl => Jv.enc v ++ Jlist.enc tl
/-- Object entries with their values already bencoded, construction
order preserved (sorting happens at the enclosing dictionary). -/
def Jobj.encPairs : Jobj → List (List Nat × List Nat)
  | .nil => []
  | .cons k v tl => (k, Jv.enc v) :: Jobj.encPairs tl
end

/-! ## Timestamps.
Protobuf timestamps and their RFC3339 rendering by the flat event
marshaler (modelled from the spec: RFC3339 with nanosecond precision
and the UTC designator).  Seconds are the non-negative Unix range the
repository's data uses. -/

/-- A protobuf timestamp: Unix seconds and a nanosecond offset. -/
structure Timestamp where
  seconds : Nat
  nanos : Nat
  deriving DecidableEq

/-- Two-digit zero-padded decimal field. -/
def pad2 (n : Nat) : List Nat := [48 + n / 10, 48 + n % 10]

/-- Three-digit zero-padded decimal field. -/
def pad3 (n : Nat) : List Nat := [48 + n / 100, 48 + n / 10 % 10, 48 + n % 10]

/-- Civil date (year, month, day) from days since 1970-01-01. -/
def civilFromDays (days : Nat) : Nat × Nat × Nat :=
  let z := days + 719468
  let era := z / 146097
  let doe := z % 146097
  let yoe := (doe - doe / 1460 + doe / 36524 - doe / 146096) / 365
  let y := yoe + era * 400
  let doy := doe - (365 * yoe + yoe / 4 - yoe / 100)
  let mp := (5 * doy + 2) / 153
  let d := doy - (153 * mp + 2) / 5 + 1
  let m := if mp < 10 then mp + 3 else mp - 9
  (if m ≤ 2 then y + 1 else y, m, d)

/-- Fractional-second field: empty for zero nanos, else 3, 6 or 9
digits after a dot, as the protobuf JSON timestamp form emits. -/
def fracPart (nanos : Nat) : List Nat :=
  if nanos = 0 then []
  else if nanos % 1000000 = 0 then 46 :: pad3 (nanos / 1000000)
  else if nanos % 1000 = 0 then 46 :: (pad3 (nanos / 1000000) ++ pad3 (nanos / 1000 % 1000))
  else 46 :: (pad3 (nanos / 1000000) ++ pad3 (nanos / 1000 % 1000) ++ pad3 (nanos % 1000))

/-- RFC3339 UTC rendering of a timestamp, as the flat marshaler emits it
(modelled from the spec and the repository's timestamp test vector). -/
def rfc3339 (t : Timestamp) : List Nat :=
  let ymd := civilFromDays (t.seconds / 86400)
  let rem := t.seconds % 86400
  natDec ymd.1 ++ [45] ++ pad2 ymd.2.1 ++ [45] ++ pad2 ymd.2.2 ++ [84]
    ++ pad2 (rem / 3600) ++ [58] ++ pad2 (rem % 3600 / 60) ++ [58] ++ pad2 (rem % 60)
    ++ fracPart t.nanos ++ [90]

/-! ## The typed event and the schema records.
`EventResponse` carries the hash-relevant fields of the protobuf event
(the full message has more fields; only these reach the records).
`V2Event` and `V3Event` are translated from the source structs of the
same names: every field already formatted, maps as association lists. -/

/-- A principal record of the protobuf event. -/
structure Principal where
  issuer : List Nat
  subject : List Nat
  displayName : List Nat
  email : List Nat
  deriving DecidableEq

/-- The protobuf confirmation-status enumeration. -/
inductive ConfirmationStatus : Type where
  | unspecified : ConfirmationStatus
  | pending : ConfirmationStatus
  | confirmed : ConfirmationStatus
  | failed : ConfirmationStatus
  deriving DecidableEq

/-- Name string of a confirmation status, as the generated enum name
map yields it. -/
def ConfirmationStatus.name : ConfirmationStatus → List Nat
  | .unspecified => ascii ("CONFIRMATION_STATUS_UNSPECIFIED")
  | .pending => ascii ("PENDING")
  | .confirmed => ascii ("CONFIRMED")
  | .failed => ascii ("FAILED")

/-- The hash-relevant fields of the typed (protobuf-shaped) event. The
source field `from` is `fromAddr` here (`from` is reserved in Lean).
Attribute values are the flat (API-shaped) values. -/
structure EventResponse where
  identity : List Nat
  assetIdentity : List Nat
  eventAttributes : List (List Nat × Jv)
  assetAttributes : List (List Nat × Jv)
  operation : List Nat
  behaviour : List Nat
  timestampDeclared : Timestamp
  timestampAccepted : Timestamp
  timestampCommitted : Timestamp
  principalDeclared : Principal
  principalAccepted : Principal
  confirmationStatus : ConfirmationStatus
  fromAddr : List Nat
  tenantIdentity : List Nat
  deriving DecidableEq

/-- The v2 schema event record: exactly the fields the source `V2Event`
struct hashes, timestamps already RFC3339 strings, confirmation status
already a name string. -/
structure V2Event where
  identity : List Nat
  assetIdentity : List Nat
  eventAttributes : List (List Nat × Jv)
  assetAttributes : List (List Nat × Jv)
  operation : List Nat
  behaviour : List Nat
  timestampDeclared : List Nat
  timestampAccepted : List Nat
  timestampCommitted : List Nat
  principalAccepted : List (List Nat × Jv)
  principalDeclared : List (List Nat × Jv)
  confirmationStatus : List Nat
  fromAddr : List Nat
  tenantIdentity : List Nat
  deriving DecidableEq

/-- The v3 schema event record: the source `V3Event` struct, which
drops asset identity, confirmation status and the originating address. -/
structure V3Event where
  identity : List Nat
  eventAttributes : List (List Nat × Jv)
  assetAttributes : List (List Nat × Jv)
  operation : List Nat
  behaviour : List Nat
  timestampDeclared : List Nat
  timestampAccepted : List Nat
  timestampCommitted : List Nat
  principalAccepted : List (List Nat × Jv)
  principalDeclared : List (List Nat × Jv)
  tenantIdentity : List Nat
  deriving DecidableEq

/-- JSON object entries of a principal as the flat marshaler emits them
(modelled from the spec: the API's snake_case field names). -/
def Principal.pairs (p : Principal) : List (List Nat × Jv) :=
  [(ascii ("issuer"), Jv.str p.issuer),
   (ascii ("subject"), Jv.str p.subject),
   (ascii ("display_name"), Jv.str p.displayName),
   (ascii ("email"), Jv.str p.email)]

/-- Translate the typed event to the v2 record. Models the source
`V2FromEventResponse` (flat-marshal to API JSON, re-parse into the
record); the marshaling itself is external, modelled from the spec:
project the fields, format timestamps as RFC3339, render the
confirmation status name. -/
def v2FromEventResponse (e : EventResponse) : V2Event :=
  { identity := e.identity
    assetIdentity := e.assetIdentity
    eventAttributes := e.eventAttributes
    assetAttributes := e.assetAttributes
    operation := e.operation
    behaviour := e.behaviour
    timestampDeclared := rfc3339 e.timestampDeclared
    timestampAccepted := rfc3339 e.timestampAccepted
    timestampCommitted := rfc3339 e.timestampCommitted
    principalAccepted := e.principalAccepted.pairs
    principalDeclared := e.principalDeclared.pairs
    confirmationStatus := e.confirmationStatus.name
    fromAddr := e.fromAddr
    tenantIdentity := e.tenantIdentity }

/-- Translate the typed event to the v3 record. Models the source
`V3FromEventResponse` over the same flat marshaling, binding only the
v3 fields. -/
def v3FromEventResponse (e : EventResponse) : V3Event :=
  { identity := e.identity
    eventAttributes := e.eventAttributes
    assetAttributes := e.assetAttributes
    operation := e.operation
    behaviour := e.behaviour
    timestampDeclared := rfc3339 e.timestampDeclared
    timestampAccepted := rfc3339 e.timestampAccepted
    timestampCommitted := rfc3339 e.timestampCommitted
    principalAccepted := e.principalAccepted.pairs
    principalDeclared := e.principalDeclared.pairs
    tenantIdentity := e.tenantIdentity }

/-- The generic JSON value of the marshaled v2 record, as the source
`V2HashEvent` obtains it by `json.Marshal` then `json.Unmarshal` into
`any` before bencoding: an object keyed by the struct's snake_case
JSON tags. -/
def v2ToJv (e : V2Event) : Jv :=
  Jv.obj (toJobj
    [(ascii ("identity"), Jv.str e.identity),
     (ascii ("asset_identity"), Jv.str e.assetIdentity),
     (ascii ("event_attributes"), Jv.obj (toJobj e.eventAttributes)),
     (ascii ("asset_attributes"), Jv.obj (toJobj e.assetAttributes)),
     (ascii ("operation"), Jv.str e.operation),
     (ascii ("behaviour"), Jv.str e.behaviour),
     (ascii ("timestamp_declared"), Jv.str e.timestampDeclared),
     (ascii ("timestamp_accepted"), Jv.str e.timestampAccepted),
     (ascii ("timestamp_committed"), Jv.str e.timestampCommitted),
     (ascii ("principal_accepted"), Jv.obj (toJobj e.principalAccepted)),
     (ascii ("principal_declared"), Jv.obj (toJobj e.principalDeclared)),
     (ascii ("confirmation_status"), Jv.str e.confirmationStatus),
     (ascii ("from"), Jv.str e.fromAddr),
     (ascii ("tenant_identity"), Jv.str e.tenantIdentity)])

/-- The generic JSON value of the marshaled v3 record, as the source
`V3HashEvent` obtains it before bencoding. -/
def v3ToJv (e : V3Event) : Jv :=
  Jv.obj (toJobj
    [(ascii ("identity"), Jv.str e.identity),
     (ascii ("event_attributes"), Jv.obj (toJobj e.eventAttributes)),
     (ascii ("asset_attributes"), Jv.obj (toJobj e.assetAttributes)),
     (ascii ("operation"), Jv.str e.operation),
     (ascii ("behaviour"), Jv.str e.behaviour),
     (ascii ("timestamp_declared"), Jv.str e.timestampDeclared),
     (ascii ("timestamp_accepted"), Jv.str e.timestampAccepted),
     (ascii ("timestamp_committed"), Jv.str e.timestampCommitted),
     (ascii ("principal_accepted"), Jv.obj (toJobj e.principalAccepted)),
     (ascii ("principal_declared"), Jv.obj (toJobj e.principalDeclared)),
     (ascii ("tenant_identity"), Jv.str e.tenantIdentity)])

/-- The source `V2HashEvent`: bencode the record's generic JSON value
and write it to the digest. The digest state is the byte string written
since the last reset; the function appends to it. The source's error
returns (marshal, unmarshal, bencode failures) are unreachable for
values of this model, so the embedding is total. -/
def v2HashEvent (st : List Nat) (e : V2Event) : List Nat := st ++ (v2ToJv e).enc

/-- The source `V3HashEvent`, likewise total. -/
def v3HashEvent (st : List Nat) (e : V3Event) : List Nat := st ++ (v3ToJv e).enc

/-! ## Options and the hash accumulator.
`HashOptions` and the option builders are translated from the source
options file; `applyEventOptions` / `applyHashingOptions` from the
source hasher file. The accumulator state is the byte string written to
the digest since the last reset; `sum` is SHA-256 of that state, which
models the non-destructive `Sum(nil)` read-out. -/

/-- The source `HashOptions` struct. The source field `prefix` is
`preBytes` here; `idcommitted` holds the already-encoded 8 bytes, as in
the source. -/
structure HashOptions where
  accumulateHash : Bool := false
  publicFromPermissioned : Bool := false
  asConfirmed : Bool := false
  preBytes : List Nat := []
  committed : Option Timestamp := none
  idcommitted : Option (List Nat) := none
  deriving DecidableEq

/-- The source `WithIDCommitted`: store the 8-byte big-endian encoding
of the id-commitment value. -/
def withIDCommitted (idc : Nat) (o : HashOptions) : HashOptions :=
  { o with idcommitted := some (beBytes 8 (idc % 18446744073709551616)) }

/-- The source `WithPrefix`: append the given bytes to any previously
supplied domain-separation bytes. -/
def withPreBytes (b : List Nat) (o : HashOptions) : HashOptions :=
  { o with preBytes := o.preBytes ++ b }

/-- The source `WithTimestampCommitted`. -/
def withTimestampCommitted (t : Timestamp) (o : HashOptions) : HashOptions :=
  { o with committed := some t }

/-- The source `WithAccumulate`. -/
def withAccumulate (o : HashOptions) : HashOptions :=
  { o with accumulateHash := true }

/-- The source `WithPublicFromPermissioned`. -/
def withPublicFromPermissioned (o : HashOptions) : HashOptions :=
  { o with publicFromPermissioned := true }

/-- The source `WithAsConfirmed`. -/
def withAsConfirmed (o : HashOptions) : HashOptions :=
  { o with asConfirmed := true }

/-- Fold a variadic option list over the zero options value, as every
entry point's `for _, opt := range opts` loop does. -/
def mkOptions (opts : List (HashOptions → HashOptions)) : HashOptions :=
  opts.foldl (fun o f => f o) {}

/-- The fixed public marker of identity strings (modelled from the
spec: the identity translator prepends a fixed public marker; the
repository's tests fix it as the bytes of the word public). -/
def publicMarker : List Nat := ascii ("public")

/-- Does the second byte string start with the first? -/
def leadsWith : List Nat → List Nat → Bool
  | [], _ => true
  | _ :: _, [] => false
  | a :: as, b :: bs => a == b && leadsWith as bs

/-- Modelled from the spec: `PublicIdentityFromPermissioned` of the API
support library prepends the fixed public marker. -/
def publicIdentityFromPermissioned (ident : List Nat) : List Nat :=
  publicMarker ++ ident

/-- Modelled from the spec: `PermissionedIdentityFromPublic` strips the
public marker when present and otherwise returns the input unchanged. -/
def permissionedIdentityFromPublic (ident : List Nat) : List Nat :=
  if leadsWith publicMarker ident then ident.drop publicMarker.length else ident

/-- The source `PublicFromPermissionedEvent`: translate the event and
asset identities to their public counterparts. -/
def publicFromPermissionedEvent (e : EventResponse) : EventResponse :=
  { e with identity := publicIdentityFromPermissioned e.identity
           assetIdentity := publicIdentityFromPermissioned e.assetIdentity }

/-- The source `Hasher.applyEventOptions`: rewrite the caller's event
in place for the public-from-permissioned and committed-timestamp
options. The returned value is the pointed-to event after the call. -/
def applyEventOptions (o : HashOptions) (e : EventResponse) : EventResponse :=
  let e1 := if o.publicFromPermissioned then publicFromPermissionedEvent e else e
  match o.committed with
  | some t => { e1 with timestampCommitted := t }
  | none => e1

/-- The source `Hasher.applyHashingOptions`: reset unless accumulating,
write the domain-separation bytes when non-empty, then the
id-commitment bytes when present. -/
def applyHashingOptions (o : HashOptions) (st : List Nat) : List Nat :=
  let st1 := if o.accumulateHash then st else []
  let st2 := if o.preBytes.length != 0 then st1 ++ o.preBytes else st1
  match o.idcommitted with
  | some c => st2 ++ c
  | none => st2

/-- The source `HasherV2.HashEvent` (file schemav2.go): apply the event
options to the caller's event, derive the v2 record, apply the hashing
options, write the bencoded record. Returns the caller's event as left
after the call together with the new digest state. -/
def hashEventV2 (o : HashOptions) (e : EventResponse) (st : List Nat) :
    EventResponse × List Nat :=
  let e1 := applyEventOptions o e
  (e1, v2HashEvent (applyHashingOptions o st) (v2FromEventResponse e1))

/-- The source `HasherV3.HashEvent` (the schema-v3 revision whose
`applyEventOptions` acts on the typed event). -/
def hashEventV3 (o : HashOptions) (e : EventResponse) (st : List Nat) :
    EventResponse × List Nat :=
  let e1 := applyEventOptions o e
  (e1, v3HashEvent (applyHashingOptions o st) (v3FromEventResponse e1))

/-- The source `EventSimpleHashV2`: the option-free v2 entry point. -/
def eventSimpleHashV2 (st : List Nat) (e : EventResponse) : List Nat :=
  v2HashEvent st (v2FromEventResponse e)

/-! ## The fixed test events of the repository (validEventsV2). -/

/-- The William Defoe principal of the first fixed test event. -/
def principalDefoe : Principal :=
  { issuer := ascii ("https://rkvt.com")
    subject := ascii ("117303158125148247777")
    displayName := ascii ("William Defoe")
    email := ascii ("WilliamDefoe@rkvst.com") }

/-- The John Cena principal of the second fixed test event. -/
def principalCena : Principal :=
  { issuer := ascii ("https://rkvt.com")
    subject := ascii ("227303158125148248888")
    displayName := ascii ("John Cena")
    email := ascii ("JohnCena@rkvst.com") }

/-- The first fixed test event (validEventsV2 entry 0). -/
def eventOne : EventResponse :=
  { identity := ascii ("assets/03c60f22-588c-4f12-b3c2-e98c7f2e98a0/events/409ae05a-183d-4e55-8aa6-889159edefd3")
    assetIdentity := ascii ("assets/03c60f22-588c-4f12-b3c2-e98c7f2e98a0")
    eventAttributes := [(ascii ("foo"), Jv.str (ascii ("bar")))]
    assetAttributes := [(ascii ("fab"), Jv.str (ascii ("baz")))]
    operation := ascii ("Record")
    behaviour := ascii ("RecordEvidence")
    timestampDeclared := ⟨1665926090, 0⟩
    timestampAccepted := ⟨1665926095, 0⟩
    timestampCommitted := ⟨1665926099, 0⟩
    principalDeclared := principalDefoe
    principalAccepted := principalDefoe
    confirmationStatus := ConfirmationStatus.confirmed
    fromAddr := ascii ("0xf8dfc073650503aeD429E414bE7e972f8F095e70")
    tenantIdentity := ascii ("tenant/0684984b-654d-4301-ad10-a508126e187d") }

/-- The second fixed test event (validEventsV2 entry 1, the
vehicle/volvo variant). -/
def eventTwo : EventResponse :=
  { identity := ascii ("assets/a987b910-f567-4cca-9869-bbbeb12aec20/events/936ba508-ee65-426d-8903-52c59cb4655b")
    assetIdentity := ascii ("assets/a987b910-f567-4cca-9869-bbbeb12aec20")
    eventAttributes := [(ascii ("make"), Jv.str (ascii ("volvo")))]
    assetAttributes := [(ascii ("vehicle"), Jv.str (ascii ("car")))]
    operation := ascii ("Record")
    behaviour := ascii ("RecordEvidence")
    timestampDeclared := ⟨1665126090, 0⟩
    timestampAccepted := ⟨1665126095, 0⟩
    timestampCommitted := ⟨1665126099, 0⟩
    principalDeclared := principalCena
    principalAccepted := principalCena
    confirmationStatus := ConfirmationStatus.confirmed
    fromAddr := ascii ("0xa453a973650503aeD429E414bE7e972f8F095f81")
    tenantIdentity := ascii ("tenant/0684984b-654d-4301-ad10-a508126e187d") }

/-! ## JSON parsing.
The JSON entry points feed API-shaped JSON bytes through Go's
`encoding/json`.  That decoder is external, modelled from the spec:
parse the bytes into a generic value, failing on malformed input, then
bind the snake_case fields, failing on a shape mismatch. -/

/-- Skip JSON whitespace bytes. -/
def skipWs : List Nat → List Nat
  | c :: rest =>
      if c = 32 ∨ c = 9 ∨ c = 10 ∨ c = 13 then skipWs rest else c :: rest
  | [] => []

/-- UTF-8 encoding of a code point. -/
def utf8Enc (c : Nat) : List Nat :=
  if c < 128 then [c]
  else if c < 2048 then [192 + c / 64, 128 + c % 64]
  else if c < 65536 then [224 + c / 4096, 128 + c / 64 % 64, 128 + c % 64]
  else [240 + c / 262144, 128 + c / 4096 % 64, 128 + c / 64 % 64, 128 + c % 64]

/-- Is the byte an ASCII hex digit? -/
def isHex (c : Nat) : Bool :=
  (48 ≤ c && c ≤ 57) || (97 ≤ c && c ≤ 102) || (65 ≤ c && c ≤ 70)

/-- Value of an ASCII hex digit (either case). -/
def hexValU (c : Nat) : Nat :=
  if 48 ≤ c ∧ c ≤ 57 then c - 48
  else if 97 ≤ c ∧ c ≤ 102 then c - 87
  else if 65 ≤ c ∧ c ≤ 70 then c - 55
  else 0

/-- Code point of four hex-digit bytes. -/
def hex4 (a b c d : Nat) : Nat :=
  ((hexValU a * 16 + hexValU b) * 16 + hexValU c) * 16 + hexValU d

/-- Parse the body of a JSON string after the opening quote, returning
the decoded bytes and the remainder after the closing quote.  Escapes
follow the JSON grammar; a Unicode escape pairs with a following low
surrogate escape and an unpaired surrogate becomes U+FFFD, as the Go
decoder replaces it. -/
def parseStrBody : Nat → List Nat → Option (List Nat × List Nat)
  | 0, _ => none
  | _ + 1, [] => none
  | fuel + 1, c :: rest =>
    if c = 34 then some ([], rest)
    else if c = 92 then
      match rest with
      | 34 :: r2 => (parseStrBody fuel r2).map (fun p => (34 :: p.1, p.2))
      | 92 :: r2 => (parseStrBody fuel r2).map (fun p => (92 :: p.1, p.2))
      | 47 :: r2 => (parseStrBody fuel r2).map (fun p => (47 :: p.1, p.2))
      | 98 :: r2 => (parseStrBody fuel r2).map (fun p => (8 :: p.1, p.2))
      | 102 :: r2 => (parseStrBody fuel r2).map (fun p => (12 :: p.1, p.2))
      | 110 :: r2 => (parseStrBody fuel r2).map (fun p => (10 :: p.1, p.2))
      | 114 :: r2 => (parseStrBody fuel r2).map (fun p => (13 :: p.1, p.2))
      | 116 :: r2 => (parseStrBody fuel r2).map (fun p => (9 :: p.1, p.2))
      | 117 :: h1 :: h2 :: h3 :: h4 :: r2 =>
        if isHex h1 && isHex h2 && isHex h3 && isHex h4 then
          let cp := hex4 h1 h2 h3 h4
          if 55296 ≤ cp ∧ cp < 56320 then
            match r2 with
            | 92 :: 117 :: g1 :: g2 :: g3 :: g4 :: r3 =>
              if isHex g1 && isHex g2 && isHex g3 && isHex g4 then
                let lo := hex4 g1 g2 g3 g4
                if 56320 ≤ lo ∧ lo < 57344 then
                  (parseStrBody fuel r3).map
                    (fun p => (utf8Enc (65536 + (cp - 55296) * 1024 + (lo - 56320)) ++ p.1, p.2))
                else (parseStrBody fuel r3).map (fun p => (utf8Enc 65533 ++ p.1, p.2))
              else none
            | _ => (parseStrBody fuel r2).map (fun p => (utf8Enc 65533 ++ p.1, p.2))
          else if 56320 ≤ cp ∧ cp < 57344 then
            (parseStrBody fuel r2).map (fun p => (utf8Enc 65533 ++ p.1, p.2))
          else (parseStrBody fuel r2).map (fun p => (utf8Enc cp ++ p.1, p.2))
        else none
      | _ => none
    else if c < 32 then none
    else (parseStrBody fuel rest).map (fun p => (c :: p.1, p.2))

/-- Split a leading run of decimal digits from the input. -/
def takeDigits : List Nat → List Nat × List Nat
  | [] => ([], [])
  | c :: rest =>
      if 48 ≤ c ∧ c ≤ 57 then
        let p := takeDigits rest
        (c :: p.1, p.2)
      else ([], c :: rest)

/-- Parse a JSON number lexeme, returning the lexeme bytes and the
remainder; follows the JSON number grammar. -/
def parseNumLex (input : List Nat) : Option (List Nat × List Nat) :=
  let (sign, r1) :=
    match input with
    | 45 :: r => (([45] : List Nat), r)
    | r => ([], r)
  match r1 with
  | [] => none
  | c :: r2 =>
    if c = 48 then
      (parseNumTail r2).map (fun p => (sign ++ [48] ++ p.1, p.2))
    else if 49 ≤ c ∧ c ≤ 57 then
      let d := takeDigits r2
      (parseNumTail d.2).map (fun p => (sign ++ [c] ++ d.1 ++ p.1, p.2))
    else none
where
  /-- Optional fraction and exponent after the integer part. -/
  parseNumTail (input : List Nat) : Option (List Nat × List Nat) :=
    let frac :=
      match input with
      | 46 :: r =>
        let d := takeDigits r
        if d.1.isEmpty then none else some ((46 :: d.1, d.2) : List Nat × List Nat)
      | r => some ([], r)
    match frac with
    | none => none
    | some (fr, r2) =>
      match r2 with
      | 101 :: r3 =>
        match r3 with
        | 43 :: r4 =>
          let d := takeDigits r4
          if d.1.isEmpty then none else some (fr ++ [101, 43] ++ d.1, d.2)
        | 45 :: r4 =>
          let d := takeDigits r4
          if d.1.isEmpty then none else some (fr ++ [101, 45] ++ d.1, d.2)
        | _ =>
          let d := takeDigits r3
          if d.1.isEmpty then none else some (fr ++ [101] ++ d.1, d.2)
      | 69 :: r3 =>
        match r3 with
        | 43 :: r4 =>
          let d := takeDigits r4
          if d.1.isEmpty then none else some (fr ++ [69, 43] ++ d.1, d.2)
        | 45 :: r4 =>
          let d := takeDigits r4
          if d.1.isEmpty then none else some (fr ++ [69, 45] ++ d.1, d.2)
        | _ =>
          let d := takeDigits r3
          if d.1.isEmpty then none else some (fr ++ [69] ++ d.1, d.2)
      | _ => some (fr, r2)

mutual
/-- Parse one JSON value; the fuel bounds recursion depth and exceeds
any input's needs when set above its length. -/
def parseVal : Nat → List Nat → Option (Jv × List Nat)
  | 0, _ => none
  | fuel + 1, input =>
    match skipWs input with
    | [] => none
    | c :: rest =>
      if c = 110 then
        match rest with
        | 117 :: 108 :: 108 :: r => some (Jv.null, r)
        | _ => none
      else if c = 116 then
        match rest with
        | 114 :: 117 :: 101 :: r => some (Jv.boolv true, r)
        | _ => none
      else if c = 102 then
        match rest with
        | 97 :: 108 :: 115 :: 101 :: r => some (Jv.boolv false, r)
        | _ => none
      else if c = 34 then
        (parseStrBody (rest.length + 1) rest).map (fun p => (Jv.str p.1, p.2))
      else if c = 91 then
        match skipWs rest with
        | 93 :: r => some (Jv.arr Jlist.nil, r)
        | r2 => (parseArrItems fuel r2).map (fun p => (Jv.arr p.1, p.2))
      else if c = 123 then
        match skipWs rest with
        | 125 :: r => some (Jv.obj Jobj.nil, r)
        | r2 => (parseObjItems fuel r2).map (fun p => (Jv.obj p.1, p.2))
      else
        (parseNumLex (c :: rest)).map (fun p => (Jv.num p.1, p.2))
/-- Parse the comma-separated elements of a non-empty array up to the
closing bracket. -/
def parseArrItems : Nat → List Nat → Option (Jlist × List Nat)
  | 0, _ => none
  | fuel + 1, input =>
    match parseVal fuel input with
    | none => none
    | some (v, rest) =>
      match skipWs rest with
      | 44 :: r2 => (parseArrItems fuel r2).map (fun p => (Jlist.cons v p.1, p.2))
      | 93 :: r2 => some (Jlist.cons v Jlist.nil, r2)
      | _ => none
/-- Parse the comma-separated entries of a non-empty object up to the
closing brace. -/
def parseObjItems : Nat → List Nat → Option (Jobj × List Nat)
  | 0, _ => none
  | fuel + 1, input =>
    match skipWs input with
    | 34 :: rest =>
      match parseStrBody (rest.length + 1) rest with
      | none => none
      | some (key, r2) =>
        match skipWs r2 with
        | 58 :: r3 =>
          match parseVal fuel r3 with
          | none => none
          | some (v, r4) =>
            match skipWs r4 with
            | 44 :: r5 => (parseObjItems fuel r5).map (fun p => (Jobj.cons key v p.1, p.2))
            | 125 :: r5 => some (Jobj.cons key v Jobj.nil, r5)
            | _ => none
        | _ => none
    | _ => none
end

/-- Parse a whole JSON document: one value, then only whitespace. -/
def parseJson (b : List Nat) : Option Jv :=
  match parseVal (b.length + 2) b with
  | some (v, rest) => if (skipWs rest).isEmpty then some v else none
  | none => none

/-! ## Binding parsed JSON into the schema records. -/

/-- Object entries as an association list, in construction order. -/
def Jobj.toList : Jobj → List (List Nat × Jv)
  | .nil => []
  | .cons k v tl => (k, v) :: Jobj.toList tl

/-- The value of the last entry with the given key, as Go's object
decoding keeps the last duplicate. -/
def Jobj.lookupLast : Jobj → List Nat → Option Jv
  | .nil, _ => none
  | .cons k v tl, key =>
    match Jobj.lookupLast tl key with
    | some r => some r
    | none => if k = key then some v else none

/-- Keep the last occurrence of every key, as decoding a JSON object
into a Go map does. -/
def dedupLastWins : List (List Nat × Jv) → List (List Nat × Jv)
  | [] => []
  | p :: rest =>
      if rest.any (fun q => q.1 = p.1) then dedupLastWins rest
      else p :: dedupLastWins rest

/-- Decode a string-typed struct field: absent and null leave the zero
value, a string binds, anything else is a shape error. -/
def getStrField : Option Jv → Option (List Nat)
  | none => some []
  | some Jv.null => some []
  | some (Jv.str s) => some s
  | some _ => none

/-- Decode a map-typed struct field likewise. -/
def getMapField : Option Jv → Option (List (List Nat × Jv))
  | none => some []
  | some Jv.null => some []
  | some (Jv.obj o) => some (dedupLastWins o.toList)
  | some _ => none

/-- The zero v2 record, as Go leaves an untouched struct. -/
def zeroV2 : V2Event :=
  { identity := [], assetIdentity := [], eventAttributes := [], assetAttributes := []
    operation := [], behaviour := [], timestampDeclared := [], timestampAccepted := []
    timestampCommitted := [], principalAccepted := [], principalDeclared := []
    confirmationStatus := [], fromAddr := [], tenantIdentity := [] }

/-- The zero v3 record. -/
def zeroV3 : V3Event :=
  { identity := [], eventAttributes := [], assetAttributes := []
    operation := [], behaviour := [], timestampDeclared := [], timestampAccepted := []
    timestampCommitted := [], principalAccepted := [], principalDeclared := []
    tenantIdentity := [] }

/-- Bind a parsed JSON value into the v2 record the way `json.Unmarshal`
does: null leaves the zero record, an object binds field by field with a
shape error on a mistyped field, anything else is a shape error. -/
def bindV2 (v : Jv) : Option V2Event :=
  match v with
  | Jv.null => some zeroV2
  | Jv.obj o =>
    (getStrField (o.lookupLast (ascii ("identity")))).bind fun identity =>
    (getStrField (o.lookupLast (ascii ("asset_identity")))).bind fun assetIdentity =>
    (getMapField (o.lookupLast (ascii ("event_attributes")))).bind fun eventAttributes =>
    (getMapField (o.lookupLast (ascii ("asset_attributes")))).bind fun assetAttributes =>
    (getStrField (o.lookupLast (ascii ("operation")))).bind fun operation =>
    (getStrField (o.lookupLast (ascii ("behaviour")))).bind fun behaviour =>
    (getStrField (o.lookupLast (ascii ("timestamp_declared")))).bind fun timestampDeclared =>
    (getStrField (o.lookupLast (ascii ("timestamp_accepted")))).bind fun timestampAccepted =>
    (getStrField (o.lookupLast (ascii ("timestamp_committed")))).bind fun timestampCommitted =>
    (getMapField (o.lookupLast (ascii ("principal_accepted")))).bind fun principalAccepted =>
    (getMapField (o.lookupLast (ascii ("principal_declared")))).bind fun principalDeclared =>
    (getStrField (o.lookupLast (ascii ("confirmation_status")))).bind fun confirmationStatus =>
    (getStrField (o.lookupLast (ascii ("from")))).bind fun fromAddr =>
    (getStrField (o.lookupLast (ascii ("tenant_identity")))).bind fun tenantIdentity =>
    some { identity := identity, assetIdentity := assetIdentity
           eventAttributes := eventAttributes, assetAttributes := assetAttributes
           operation := operation, behaviour := behaviour
           timestampDeclared := timestampDeclared, timestampAccepted := timestampAccepted
           timestampCommitted := timestampCommitted, principalAccepted := principalAccepted
           principalDeclared := principalDeclared, confirmationStatus := confirmationStatus
           fromAddr := fromAddr, tenantIdentity := tenantIdentity }
  | _ => none

/-- Bind a parsed JSON value into the v3 record likewise. -/
def bindV3 (v : Jv) : Option V3Event :=
  match v with
  | Jv.null => some zeroV3
  | Jv.obj o =>
    (getStrField (o.lookupLast (ascii ("identity")))).bind fun identity =>
    (getMapField (o.lookupLast (ascii ("event_attributes")))).bind fun eventAttributes =>
    (getMapField (o.lookupLast (ascii ("asset_attributes")))).bind fun assetAttributes =>
    (getStrField (o.lookupLast (ascii ("operation")))).bind fun operation =>
    (getStrField (o.lookupLast (ascii ("behaviour")))).bind fun behaviour =>
    (getStrField (o.lookupLast (ascii ("timestamp_declared")))).bind fun timestampDeclared =>
    (getStrField (o.lookupLast (ascii ("timestamp_accepted")))).bind fun timestampAccepted =>
    (getStrField (o.lookupLast (ascii ("timestamp_committed")))).bind fun timestampCommitted =>
    (getMapField (o.lookupLast (ascii ("principal_accepted")))).bind fun principalAccepted =>
    (getMapField (o.lookupLast (ascii ("principal_declared")))).bind fun principalDeclared =>
    (getStrField (o.lookupLast (ascii ("tenant_identity")))).bind fun tenantIdentity =>
    some { identity := identity
           eventAttributes := eventAttributes, assetAttributes := assetAttributes
           operation := operation, behaviour := behaviour
           timestampDeclared := timestampDeclared, timestampAccepted := timestampAccepted
           timestampCommitted := timestampCommitted, principalAccepted := principalAccepted
           principalDeclared := principalDeclared, tenantIdentity := tenantIdentity }
  | _ => none

/-- The source `V2FromEventJSON` over byte input: decode the JSON into
the v2 record, surfacing the decoder's error. -/
def v2FromEventJSONBytes (b : List Nat) : Option V2Event :=
  (parseJson b).bind bindV2

/-! ## Spec-side description of v2 JSON decoding, for comparison with
`bindV2`: a shape predicate and a total field reader following the
spec's words. -/

/-- Does an optional value fit a string-typed field? -/
def strOk : Option Jv → Bool
  | none => true
  | some Jv.null => true
  | some (Jv.str _) => true
  | some _ => false

/-- Does an optional value fit a map-typed field? -/
def mapOk : Option Jv → Bool
  | none => true
  | some Jv.null => true
  | some (Jv.obj _) => true
  | some _ => false

/-- The expected v2 record shape: null, or an object whose bound value
at each snake_case field key fits that field's type. -/
def v2ShapeOk (v : Jv) : Bool :=
  match v with
  | Jv.null => true
  | Jv.obj o =>
    strOk (o.lookupLast (ascii ("identity"))) &&
    strOk (o.lookupLast (ascii ("asset_identity"))) &&
    mapOk (o.lookupLast (ascii ("event_attributes"))) &&
    mapOk (o.lookupLast (ascii ("asset_attributes"))) &&
    strOk (o.lookupLast (ascii ("operation"))) &&
    strOk (o.lookupLast (ascii ("behaviour"))) &&
    strOk (o.lookupLast (ascii ("timestamp_declared"))) &&
    strOk (o.lookupLast (ascii ("timestamp_accepted"))) &&
    strOk (o.lookupLast (ascii ("timestamp_committed"))) &&
    mapOk (o.lookupLast (ascii ("principal_accepted"))) &&
    mapOk (o.lookupLast (ascii ("principal_declared"))) &&
    strOk (o.lookupLast (ascii ("confirmation_status"))) &&
    strOk (o.lookupLast (ascii ("from"))) &&
    strOk (o.lookupLast (ascii ("tenant_identity")))
  | _ => false

/-- Total string-field reader with the zero default. -/
def strListD : Option Jv → List Nat
  | some (Jv.str s) => s
  | _ => []

/-- Total map-field reader with the zero default. -/
def mapListD : Option Jv → List (List Nat × Jv)
  | some (Jv.obj o) => dedupLastWins o.toList
  | _ => []

/-- The spec's reading of a well-shaped value as a v2 record: each
snake_case field key bound to the corresponding struct field. -/
def recordOfJv (v : Jv) : V2Event :=
  match v with
  | Jv.obj o =>
    { identity := strListD (o.lookupLast (ascii ("identity")))
      assetIdentity := strListD (o.lookupLast (ascii ("asset_identity")))
      eventAttributes := mapListD (o.lookupLast (ascii ("event_attributes")))
      assetAttributes := mapListD (o.lookupLast (ascii ("asset_attributes")))
      operation := strListD (o.lookupLast (ascii ("operation")))
      behaviour := strListD (o.lookupLast (ascii ("behaviour")))
      timestampDeclared := strListD (o.lookupLast (ascii ("timestamp_declared")))
      timestampAccepted := strListD (o.lookupLast (ascii ("timestamp_accepted")))
      timestampCommitted := strListD (o.lookupLast (ascii ("timestamp_committed")))
      principalAccepted := mapListD (o.lookupLast (ascii ("principal_accepted")))
      principalDeclared := mapListD (o.lookupLast (ascii ("principal_declared")))
      confirmationStatus := strListD (o.lookupLast (ascii ("confirmation_status")))
      fromAddr := strListD (o.lookupLast (ascii ("from")))
      tenantIdentity := strListD (o.lookupLast (ascii ("tenant_identity"))) }
  | _ => zeroV2

/-! ## The JSON entry points and the second (latest) schema-v3 revision. -/

/-- The error values the JSON entry point can return. -/
inductive HashErr : Type where
  | errInvalidOption : HashErr
  | errInputDecode : HashErr
  deriving DecidableEq

/-- The source `HasherV2.HashEventJSON` of file schemav2.go: reject the
public-from-permissioned option before touching the digest, decode the
record, then apply the hashing options and write the bencoded record.
Returns the digest state after the call and the error, if any. -/
def hashEventJSONV2 (o : HashOptions) (b : List Nat) (st : List Nat) :
    List Nat × Option HashErr :=
  if o.publicFromPermissioned then (st, some HashErr.errInvalidOption)
  else
    match v2FromEventJSONBytes b with
    | none => (st, some HashErr.errInputDecode)
    | some r2 => (v2HashEvent (applyHashingOptions o st) r2, none)

/-- The earlier revision of `HasherV2.HashEventJSON` (the single-file
hasher): reset unless accumulating before the option check, apply the
as-confirmed override to the record, write the id-commitment bytes,
then the record. -/
def hashEventJSONV2Legacy (o : HashOptions) (b : List Nat) (st : List Nat) :
    List Nat × Option HashErr :=
  let st0 := if o.accumulateHash then st else []
  if o.publicFromPermissioned then (st0, some HashErr.errInvalidOption)
  else
    match v2FromEventJSONBytes b with
    | none => (st0, some HashErr.errInputDecode)
    | some r2 =>
      let r2' := if o.asConfirmed then
          { r2 with confirmationStatus := ascii ("CONFIRMED") } else r2
      let st1 := match o.idcommitted with
        | some c => st0 ++ c
        | none => st0
      (v2HashEvent st1 r2', none)

/-- Nine-digit zero-padded decimal field. -/
def pad9 (n : Nat) : List Nat :=
  pad3 (n / 1000000) ++ pad3 (n / 1000 % 1000) ++ pad3 (n % 1000)

/-- Drop trailing zero digits. -/
def trimZeros (l : List Nat) : List Nat :=
  (l.reverse.dropWhile (fun c => c == 48)).reverse

/-- RFC3339 UTC rendering with trailing-zero-trimmed nanoseconds, as Go
`time.RFC3339Nano` formats (modelled from the spec's timestamp vector;
used by the latest revision's `SetTimestampCommitted`). -/
def rfc3339Nano (t : Timestamp) : List Nat :=
  let ymd := civilFromDays (t.seconds / 86400)
  let rem := t.seconds % 86400
  natDec ymd.1 ++ [45] ++ pad2 ymd.2.1 ++ [45] ++ pad2 ymd.2.2 ++ [84]
    ++ pad2 (rem / 3600) ++ [58] ++ pad2 (rem % 3600 / 60) ++ [58] ++ pad2 (rem % 60)
    ++ (if t.nanos = 0 then [] else 46 :: trimZeros (pad9 t.nanos)) ++ [90]

/-- The source `V3Event.ToPublicIdentity` (latest revision). -/
def V3Event.toPublicIdentity (e : V3Event) : V3Event :=
  { e with identity := publicIdentityFromPermissioned e.identity }

/-- The source `V3Event.SetTimestampCommitted` (latest revision). -/
def V3Event.setTimestampCommitted (e : V3Event) (t : Timestamp) : V3Event :=
  { e with timestampCommitted := rfc3339Nano t }

/-- Modelled from the spec: the latest revision's record-level
`applyEventOptions` dispatches the public-from-permissioned and
committed-timestamp options to the record methods (its dispatcher file
is not among the sources; the two methods it calls are). -/
def applyEventOptionsV3 (o : HashOptions) (e : V3Event) : V3Event :=
  let e1 := if o.publicFromPermissioned then e.toPublicIdentity else e
  match o.committed with
  | some t => e1.setTimestampCommitted t
  | none => e1

/-- The parse-and-bind stage of the latest `V3FromEventJSON`, before
the identity normalization line. -/
def v3ParsedJSON (b : List Nat) : Option V3Event :=
  (parseJson b).bind bindV3

/-- The source `V3FromEventJSON` (latest revision): decode, then force
the identity into permissioned form. -/
def v3FromEventJSONBytes (b : List Nat) : Option V3Event :=
  (v3ParsedJSON b).map
    (fun e => { e with identity := permissionedIdentityFromPublic e.identity })

/-- The source `V3FromEventResponse` (latest revision): marshal, then
decode through the normalizing `V3FromEventJSON`. -/
def v3FromEventResponseLatest (e : EventResponse) : V3Event :=
  let r := v3FromEventResponse e
  { r with identity := permissionedIdentityFromPublic r.identity }

/-- The source `HasherV3.HashEvent` (latest revision): derive the v3
record first, then apply the event options to that record copy only;
the caller's event is never written. -/
def hashEventV3Latest (o : HashOptions) (e : EventResponse) (st : List Nat) :
    EventResponse × List Nat :=
  (e, v3HashEvent (applyHashingOptions o st) (applyEventOptionsV3 o (v3FromEventResponseLatest e)))

/-- The source `HasherV3.HashEventFromJSON` (latest revision). -/
def hashEventFromJSONV3 (o : HashOptions) (b : List Nat) (st : List Nat) :
    Option (List Nat) :=
  (v3FromEventJSONBytes b).map
    (fun ev => v3HashEvent (applyHashingOptions o st) (applyEventOptionsV3 o ev))

/-! ## Map-order equivalence of records, for the determinism claim. -/

/-- Two association lists carry the same key-to-value pairs when one is
a permutation of the other with no duplicate keys. -/
def permNodup (l1 l2 : List (List Nat × Jv)) : Prop :=
  l1.Perm l2 ∧ (l1.map Prod.fst).Nodup

/-- Two v2 records that differ only in the construction order of their
attribute and principal maps. -/
def v2SameUpToMapOrder (e1 e2 : V2Event) : Prop :=
  e1.identity = e2.identity ∧ e1.assetIdentity = e2.assetIdentity ∧
  permNodup e1.eventAttributes e2.eventAttributes ∧
  permNodup e1.assetAttributes e2.assetAttributes ∧
  e1.operation = e2.operation ∧ e1.behaviour = e2.behaviour ∧
  e1.timestampDeclared = e2.timestampDeclared ∧
  e1.timestampAccepted = e2.timestampAccepted ∧
  e1.timestampCommitted = e2.timestampCommitted ∧
  permNodup e1.principalAccepted e2.principalAccepted ∧
  permNodup e1.principalDeclared e2.principalDeclared ∧
  e1.confirmationStatus = e2.confirmationStatus ∧
  e1.fromAddr = e2.fromAddr ∧ e1.tenantIdentity = e2.tenantIdentity

/-- Two v3 records that differ only in the construction order of their
attribute and principal maps. -/
def v3SameUpToMapOrder (f1 f2 : V3Event) : Prop :=
  f1.identity = f2.identity ∧
  permNodup f1.eventAttributes f2.eventAttributes ∧
  permNodup f1.assetAttributes f2.assetAttributes ∧
  f1.operation = f2.operation ∧ f1.behaviour = f2.behaviour ∧
  f1.timestampDeclared = f2.timestampDeclared ∧
  f1.timestampAccepted = f2.timestampAccepted ∧
  f1.timestampCommitted = f2.timestampCommitted ∧
  permNodup f1.principalAccepted f2.principalAccepted ∧
  permNodup f1.principalDeclared f2.principalDeclared ∧
  f1.tenantIdentity = f2.tenantIdentity

/-! ## Small fixtures for witnesses and counterexamples. -/

/-- Opening-brace byte. -/
def ob : List Nat := [123]

/-- Closing-brace byte. -/
def cb : List Nat := [125]

/-- A minimal typed event. -/
def tinyEvent : EventResponse :=
  { identity := ascii ("a"), assetIdentity := [], eventAttributes := []
    assetAttributes := [], operation := [], behaviour := []
    timestampDeclared := ⟨0, 0⟩, timestampAccepted := ⟨0, 0⟩, timestampCommitted := ⟨0, 0⟩
    principalDeclared := ⟨[], [], [], []⟩, principalAccepted := ⟨[], [], [], []⟩
    confirmationStatus := ConfirmationStatus.unspecified
    fromAddr := [], tenantIdentity := [] }

/-- The empty-principal JSON object of the minimal event. -/
def principalEmptyJson : List Nat :=
  ob ++ ascii ("\"issuer\":\"\",\"subject\":\"\",\"display_name\":\"\",\"email\":\"\"") ++ cb

/-- API-shaped JSON of the minimal event, decoding to exactly its v2
record. -/
def tinyEventJson : List Nat :=
  ob ++ ascii ("\"identity\":\"a\",\"asset_identity\":\"\",\"event_attributes\":") ++ ob ++ cb
     ++ ascii (",\"asset_attributes\":") ++ ob ++ cb
     ++ ascii (",\"operation\":\"\",\"behaviour\":\"\",") ++
  ascii ("\"timestamp_declared\":\"1970-01-01T00:00:00Z\",") ++
  ascii ("\"timestamp_accepted\":\"1970-01-01T00:00:00Z\",") ++
  ascii ("\"timestamp_committed\":\"1970-01-01T00:00:00Z\",") ++
  ascii ("\"principal_accepted\":") ++ principalEmptyJson
     ++ ascii (",\"principal_declared\":") ++ principalEmptyJson
     ++ ascii (",\"confirmation_status\":\"CONFIRMATION_STATUS_UNSPECIFIED\",") ++
  ascii ("\"from\":\"\",\"tenant_identity\":\"\"") ++ cb

/-- JSON of an event carrying only a PENDING confirmation status. -/
def pendingJson : List Nat :=
  ob ++ ascii ("\"confirmation_status\":\"PENDING\"") ++ cb

/-- The record that JSON decodes to. -/
def pendingRecord : V2Event :=
  { zeroV2 with confirmationStatus := ascii ("PENDING") }

/-- A typed event with PENDING confirmation status. -/
def pendingEvent : EventResponse :=
  { tinyEvent with confirmationStatus := ConfirmationStatus.pending }

/-- Event JSON carrying a permissioned identity (the repository's own
v3 test input). -/
def idJson1 : List Nat :=
  ob ++ ascii ("\"identity\":\"assets/1234/events/5678\"") ++ cb

/-- The same event JSON carrying the public form of that identity. -/
def idJson2 : List Nat :=
  ob ++ ascii ("\"identity\":\"publicassets/1234/events/5678\"") ++ cb

/-- The committed-timestamp override options of the divergence
examples. -/
def overrideOpts : HashOptions :=
  mkOptions [withTimestampCommitted ⟨1706700559, 43000000⟩]

/-- The v2 record of the minimal event, written out. -/
def tinyRecord : V2Event :=
  { identity := ascii ("a"), assetIdentity := []
    eventAttributes := [], assetAttributes := []
    operation := [], behaviour := []
    timestampDeclared := ascii ("1970-01-01T00:00:00Z")
    timestampAccepted := ascii ("1970-01-01T00:00:00Z")
    timestampCommitted := ascii ("1970-01-01T00:00:00Z")
    principalAccepted :=
      [(ascii ("issuer"), Jv.str []), (ascii ("subject"), Jv.str []),
       (ascii ("display_name"), Jv.str []), (ascii ("email"), Jv.str [])]
    principalDeclared :=
      [(ascii ("issuer"), Jv.str []), (ascii ("subject"), Jv.str []),
       (ascii ("display_name"), Jv.str []), (ascii ("email"), Jv.str [])]
    confirmationStatus := ascii ("CONFIRMATION_STATUS_UNSPECIFIED")
    fromAddr := [], tenantIdentity := [] }

/-- A v2 record with a two-entry attribute map. -/
def permV2a : V2Event :=
  { zeroV2 with eventAttributes :=
      [(ascii ("a"), Jv.str [49]), (ascii ("b"), Jv.str [50])] }

/-- The same v2 record with the attribute map built in the other
order. -/
def permV2b : V2Event :=
  { zeroV2 with eventAttributes :=
      [(ascii ("b"), Jv.str [50]), (ascii ("a"), Jv.str [49])] }

/-- A v3 record with a two-entry attribute map. -/
def permV3a : V3Event :=
  { zeroV3 with assetAttributes :=
      [(ascii ("x"), Jv.str [51]), (ascii ("y"), Jv.str [52])] }

/-- The same v3 record with the attribute map built in the other
order. -/
def permV3b : V3Event :=
  { zeroV3 with assetAttributes :=
      [(ascii ("y"), Jv.str [52]), (ascii ("x"), Jv.str [51])] }

/-! ## Concrete digest vectors. -/

/-- C1: hashing the first fixed v2 test event with no options — through
the option-free `EventSimpleHashV2` entry point and through
`HasherV2.HashEvent` with an empty option list — produces the SHA-256
digest 681458c64f5ca35717e69df83c392c5f671a71c18f7830ccae676edfdb7179f1. -/
theorem c1_v2_fixed_event_digest :
    sha256 (eventSimpleHashV2 [] eventOne)
        = hexBytes ("681458c64f5ca35717e69df83c392c5f671a71c18f7830ccae676edfdb7179f1")
      ∧ sha256 ((hashEventV2 (mkOptions []) eventOne []).2)
        = hexBytes ("681458c64f5ca35717e69df83c392c5f671a71c18f7830ccae676edfdb7179f1") := by
  decide

/-- C2: hashing the two fixed test events in series with the accumulate
option and no intermediate reset produces the v2 digest
61211c916cd113a1cf424ac729924de46aa6259919825dbdf8ec78c5c14665e2, and
under the v3 schema the digest
c52caf06bf525ae7e2fde8e08e2d2cac30ceb8b9f761503d7f671213b07fc576. -/
theorem c2_accumulate_digests :
    sha256 ((hashEventV2 (mkOptions [withAccumulate]) eventTwo
              ((hashEventV2 (mkOptions [withAccumulate]) eventOne []).2)).2)
        = hexBytes ("61211c916cd113a1cf424ac729924de46aa6259919825dbdf8ec78c5c14665e2")
      ∧ sha256 ((hashEventV3 (mkOptions [withAccumulate]) eventTwo
              ((hashEventV3 (mkOptions [withAccumulate]) eventOne []).2)).2)
        = hexBytes ("c52caf06bf525ae7e2fde8e08e2d2cac30ceb8b9f761503d7f671213b07fc576") := by
  decide

/-! ## Order lemmas for the bencode dictionary sort. -/

/-- Byte-wise comparison is reflexive. -/
theorem bytesLe_refl (a : List Nat) : bytesLe a a = true := by
  induction a with
  | nil => rfl
  | cons x xs ih => simp [bytesLe, ih]

/-- Byte-wise comparison is total. -/
theorem bytesLe_total (a b : List Nat) : bytesLe a b = true ∨ bytesLe b a = true := by
  induction a generalizing b with
  | nil => left; rfl
  | cons x xs ih =>
    cases b with
    | nil => right; rfl
    | cons y ys =>
      by_cases h1 : x < y
      · left; simp [bytesLe, h1]
      · by_cases h2 : y < x
        · right; simp [bytesLe, h2]
        · have hxy : x = y := by omega
          subst hxy
          rcases ih ys with h | h
          · left; simp [bytesLe, h]
          · right; simp [bytesLe, h]

/-- Byte-wise comparison is antisymmetric. -/
theorem bytesLe_antisymm :
    ∀ a b : List Nat, bytesLe a b = true → bytesLe b a = true → a = b := by
  intro a
  induction a with
  | nil =>
    intro b _ hba
    cases b with
    | nil => rfl
    | cons y ys => simp [bytesLe] at hba
  | cons x xs ih =>
    intro b hab hba
    cases b with
    | nil => simp [bytesLe] at hab
    | cons y ys =>
      by_cases h1 : x < y
      · have hnyx : ¬y < x := by omega
        simp [bytesLe, hnyx, h1] at hba
      · by_cases h2 : y < x
        · simp [bytesLe, h1, h2] at hab
        · have hxy : x = y := by omega
          subst hxy
          simp [bytesLe] at hab hba
          rw [ih ys hab hba]

/-- Byte-wise comparison is transitive. -/
theorem bytesLe_trans :
    ∀ a b c : List Nat, bytesLe a b = true → bytesLe b c = true → bytesLe a c = true := by
  intro a
  induction a with
  | nil => intro b c _ _; rfl
  | cons x xs ih =>
    intro b c hab hbc
    cases b with
    | nil => simp [bytesLe] at hab
    | cons y ys =>
      cases c with
      | nil => simp [bytesLe] at hbc
      | cons z zs =>
        by_cases h1 : x < y
        · by_cases h2 : y < z
          · simp [bytesLe, Nat.lt_trans h1 h2]
          · by_cases h3 : z < y
            · simp [bytesLe, h2, h3] at hbc
            · have : y = z := by omega
              subst this
              simp [bytesLe, h1]
        · by_cases h4 : y < x
          · simp [bytesLe, h1, h4] at hab
          · have : x = y := by omega
            subst this
            simp [bytesLe] at hab
            by_cases h2 : x < z
            · simp [bytesLe, h2]
            · by_cases h3 : z < x
              · simp [bytesLe, h2, h3] at hbc
              · have : x = z := by omega
                subst this
                simp [bytesLe] at hbc ⊢
                exact ih ys zs hab hbc

instance : IsTotal (List Nat × List Nat) keyLe :=
  ⟨fun p q => bytesLe_total p.1 q.1⟩

instance : IsTrans (List Nat × List Nat) keyLe :=
  ⟨fun p q r h1 h2 => bytesLe_trans p.1 q.1 r.1 h1 h2⟩

/-- Two sorted pair lists that are permutations of each other with no
duplicate keys are equal. -/
theorem sorted_keys_nodup_perm_eq :
    ∀ l1 l2 : List (List Nat × List Nat), l1.Perm l2 →
      l1.Sorted keyLe → l2.Sorted keyLe → (l1.map Prod.fst).Nodup → l1 = l2 := by
  intro l1
  induction l1 with
  | nil =>
    intro l2 hp _ _ _
    exact hp.nil_eq
  | cons a t1 ih =>
    intro l2 hp hs1 hs2 hnd
    cases l2 with
    | nil => exact absurd hp.symm.nil_eq (by simp)
    | cons b t2 =>
      have hab : a = b := by
        by_contra hne
        have hain : a ∈ b :: t2 := hp.mem_iff.mp (List.mem_cons_self a t1)
        have hbin : b ∈ a :: t1 := hp.symm.mem_iff.mp (List.mem_cons_self b t2)
        have ha2 : a ∈ t2 := by
          rcases List.mem_cons.mp hain with h | h
          · exact absurd h hne
          · exact h
        have hb1 : b ∈ t1 := by
          rcases List.mem_cons.mp hbin with h | h
          · exact absurd h.symm hne
          · exact h
        have hk1 : keyLe a b := (List.sorted_cons.mp hs1).1 b hb1
        have hk2 : keyLe b a := (List.sorted_cons.mp hs2).1 a ha2
        have hk : a.1 = b.1 := bytesLe_antisymm _ _ hk1 hk2
        have hmem : a.1 ∈ t1.map Prod.fst := hk ▸ List.mem_map_of_mem Prod.fst hb1
        have hno : a.1 ∉ t1.map Prod.fst := by
          have h' : (a.1 :: t1.map Prod.fst).Nodup := by
            simpa only [List.map_cons] using hnd
          exact (List.nodup_cons.mp h').1
        exact hno hmem
      subst hab
      have hp' : t1.Perm t2 := hp.cons_inv
      have hnd' : (t1.map Prod.fst).Nodup := by
        have h' : (a.1 :: t1.map Prod.fst).Nodup := by
          simpa only [List.map_cons] using hnd
        exact (List.nodup_cons.mp h').2
      rw [ih t2 hp' (List.sorted_cons.mp hs1).2 (List.sorted_cons.mp hs2).2 hnd']

/-- The dictionary sort yields the same result on any two
permutations with no duplicate keys. -/
theorem sortPairs_perm_eq (l1 l2 : List (List Nat × List Nat))
    (h : l1.Perm l2) (hnd : (l1.map Prod.fst).Nodup) :
    sortPairs l1 = sortPairs l2 := by
  apply sorted_keys_nodup_perm_eq
  · exact (List.perm_insertionSort keyLe l1).trans (h.trans (List.perm_insertionSort keyLe l2).symm)
  · exact List.sorted_insertionSort keyLe l1
  · exact List.sorted_insertionSort keyLe l2
  · have hperm : List.Perm ((sortPairs l1).map Prod.fst) (l1.map Prod.fst) :=
      (List.perm_insertionSort keyLe l1).map Prod.fst
    exact hperm.nodup_iff.mpr hnd

/-- Bencoding a built object reduces to the encoded entry list. -/
theorem encPairs_toJobj (l : List (List Nat × Jv)) :
    (toJobj l).encPairs = l.map (fun p => (p.1, p.2.enc)) := by
  induction l with
  | nil => rfl
  | cons p t ih => simp [toJobj, Jobj.encPairs, ih]

/-- Object encodings agree when the sorted encoded entries agree. -/
theorem encObj_congr (l1 l2 : List (List Nat × Jv))
    (h : sortPairs (l1.map (fun p => (p.1, p.2.enc)))
       = sortPairs (l2.map (fun p => (p.1, p.2.enc)))) :
    (Jv.obj (toJobj l1)).enc = (Jv.obj (toJobj l2)).enc := by
  simp [Jv.enc, encPairs_toJobj, h]

/-- Object encodings agree across reordering of distinct-key entries. -/
theorem encObj_perm (l1 l2 : List (List Nat × Jv)) (hp : permNodup l1 l2) :
    (Jv.obj (toJobj l1)).enc = (Jv.obj (toJobj l2)).enc := by
  apply encObj_congr
  apply sortPairs_perm_eq
  · exact hp.1.map _
  · simpa [List.map_map, Function.comp] using hp.2

/-- Length of the fixed-width big-endian serialization. -/
theorem beBytes_length : ∀ k n : Nat, (beBytes k n).length = k := by
  intro k
  induction k with
  | zero => intro n; rfl
  | succ m ih => intro n; simp [beBytes, ih]

/-- A byte string always leads with itself before any extension. -/
theorem leadsWith_append (p x : List Nat) : leadsWith p (p ++ x) = true := by
  induction p with
  | nil => rfl
  | cons a as ih => simp [leadsWith, ih]

/-- C3: for every option set, digest state and schema (v2 and v3), two
records that differ only in the construction order of their attribute
or principal maps (the same key-to-value pairs) hash to the same
digest. -/
theorem c3_map_order_determinism (o : HashOptions) (st : List Nat)
    (e1 e2 : V2Event) (f1 f2 : V3Event)
    (hv2 : v2SameUpToMapOrder e1 e2) (hv3 : v3SameUpToMapOrder f1 f2) :
    sha256 (v2HashEvent (applyHashingOptions o st) e1)
      = sha256 (v2HashEvent (applyHashingOptions o st) e2)
  ∧ sha256 (v3HashEvent (applyHashingOptions o st) f1)
      = sha256 (v3HashEvent (applyHashingOptions o st) f2) := by
  obtain ⟨h1, h2, h3, h4, h5, h6, h7, h8, h9, h10, h11, h12, h13, h14⟩ := hv2
  obtain ⟨g1, g2, g3, g4, g5, g6, g7, g8, g9, g10, g11⟩ := hv3
  have hEv := encObj_perm _ _ h3
  have hAs := encObj_perm _ _ h4
  have hPa := encObj_perm _ _ h10
  have hPd := encObj_perm _ _ h11
  have henc2 : (v2ToJv e1).enc = (v2ToJv e2).enc := by
    simp only [v2ToJv]
    apply encObj_congr
    simp only [List.map_cons, List.map_nil]
    rw [h1, h2, h5, h6, h7, h8, h9, h12, h13, h14, hEv, hAs, hPa, hPd]
  have gEv := encObj_perm _ _ g2
  have gAs := encObj_perm _ _ g3
  have gPa := encObj_perm _ _ g9
  have gPd := encObj_perm _ _ g10
  have henc3 : (v3ToJv f1).enc = (v3ToJv f2).enc := by
    simp only [v3ToJv]
    apply encObj_congr
    simp only [List.map_cons, List.map_nil]
    rw [g1, g4, g5, g6, g7, g8, g11, gEv, gAs, gPa, gPd]
  constructor
  · simp [v2HashEvent, henc2]
  · simp [v3HashEvent, henc3]

/-- C4: the digest input of a hashEvent call is exactly the reset-or-kept
state, then the domain-separation bytes, then the id-commitment bytes,
then the bencoded record, each simply omitted when absent; and
`WithIDCommitted` stores the 8-byte big-endian encoding. -/
theorem c4_hash_input_ordering (o : HashOptions) (st : List Nat)
    (e : EventResponse) (u : Nat) :
    ((hashEventV2 o e st).2
       = (if o.accumulateHash then st else []) ++ o.preBytes
          ++ (o.idcommitted.getD []) ++ (v2ToJv (v2FromEventResponse (applyEventOptions o e))).enc)
  ∧ ((hashEventV3 o e st).2
       = (if o.accumulateHash then st else []) ++ o.preBytes
          ++ (o.idcommitted.getD []) ++ (v3ToJv (v3FromEventResponse (applyEventOptions o e))).enc)
  ∧ (withIDCommitted u o).idcommitted = some (beBytes 8 (u % 18446744073709551616))
  ∧ (beBytes 8 (u % 18446744073709551616)).length = 8 := by
  refine ⟨?_, ?_, rfl, beBytes_length 8 _⟩ <;>
  · simp only [hashEventV2, hashEventV3, v2HashEvent, v3HashEvent, applyHashingOptions]
    cases hic : o.idcommitted <;> cases hpre : o.preBytes <;>
      simp [hic, hpre, List.append_assoc]

/-- C7: with the public-from-permissioned option set, the v2 JSON entry
point returns the invalid-option error and leaves the digest state
exactly as it was, for every input and option set, accumulate set or
not. -/
theorem c7_invalid_option_state_unchanged (o : HashOptions) (b st : List Nat)
    (h : o.publicFromPermissioned = true) :
    hashEventJSONV2 o b st = (st, some HashErr.errInvalidOption) := by
  simp [hashEventJSONV2, h]

/-- C7 witness: a concrete call with accumulate not set, a non-empty
prior state and decodable input still returns the error with the state
untouched. -/
theorem c7_witness :
    (mkOptions [withPublicFromPermissioned]).publicFromPermissioned = true
  ∧ hashEventJSONV2 (mkOptions [withPublicFromPermissioned]) tinyEventJson [7, 7]
      = ([7, 7], some HashErr.errInvalidOption) :=
  ⟨by decide, c7_invalid_option_state_unchanged _ _ _ (by decide)⟩

/-- C10 counterexample: the v2 typed-object entry point rewrites the
caller's event in place under the public-from-permissioned option, so
the caller-supplied value is not unchanged. -/
theorem c10_counterexample :
    (hashEventV2 (mkOptions [withPublicFromPermissioned]) tinyEvent []).1 ≠ tinyEvent := by
  decide

/-- C10 amended: the v2 typed-object path applies the option-driven
rewriting to the caller's event itself (the event after the call is the
option-rewritten event, its identities translated to public form),
while the latest v3 typed path rewrites only the derived record and
leaves the caller's event unchanged. -/
theorem c10_event_mutation (o : HashOptions) (e : EventResponse) (st : List Nat)
    (h : o.publicFromPermissioned = true) :
    (hashEventV2 o e st).1 = applyEventOptions o e
  ∧ ((hashEventV2 o e st).1).identity = publicIdentityFromPermissioned e.identity
  ∧ ((hashEventV2 o e st).1).assetIdentity = publicIdentityFromPermissioned e.assetIdentity
  ∧ (hashEventV3Latest o e st).1 = e := by
  refine ⟨rfl, ?_, ?_, rfl⟩ <;>
  · simp only [hashEventV2, applyEventOptions, h, if_true]
    cases o.committed <;> simp [publicFromPermissionedEvent]

/-- C10 witness. -/
theorem c10_witness :
    (mkOptions [withPublicFromPermissioned]).publicFromPermissioned = true
  ∧ ((hashEventV2 (mkOptions [withPublicFromPermissioned]) tinyEvent []).1).identity
      = publicIdentityFromPermissioned tinyEvent.identity :=
  ⟨by decide, (c10_event_mutation _ tinyEvent [] (by decide)).2.1⟩

/-- C8: at the concrete PENDING inputs, the current revision's v2
entry points (typed and JSON) fold the record with its original
PENDING status even though as-confirmed is set — the option is
ignored — while the earlier single-file revision rewrites the record
to CONFIRMED as the claim describes. -/
theorem c8_asconfirmed_divergence :
    v2FromEventJSONBytes pendingJson = some pendingRecord
  ∧ pendingRecord.confirmationStatus ≠ ascii ("CONFIRMED")
  ∧ (hashEventJSONV2 (mkOptions [withAsConfirmed]) pendingJson []).2 = none
  ∧ sha256 ((hashEventJSONV2 (mkOptions [withAsConfirmed]) pendingJson []).1)
      = hexBytes ("b1ebec3702cac9e4effc59053190c93fe94dfa65d7f8c9bd3e73647ad65b188a")
  ∧ sha256 (v2HashEvent [] pendingRecord)
      = hexBytes ("b1ebec3702cac9e4effc59053190c93fe94dfa65d7f8c9bd3e73647ad65b188a")
  ∧ (v2FromEventResponse pendingEvent).confirmationStatus = ascii ("PENDING")
  ∧ sha256 ((hashEventV2 (mkOptions [withAsConfirmed]) pendingEvent []).2)
      = hexBytes ("af02a9eb40b956e1ebe9e893e72010eb75ff2ccd5e9f54824258b61030d7d444")
  ∧ sha256 (v2HashEvent [] (v2FromEventResponse pendingEvent))
      = hexBytes ("af02a9eb40b956e1ebe9e893e72010eb75ff2ccd5e9f54824258b61030d7d444")
  ∧ sha256 ((hashEventJSONV2Legacy (mkOptions [withAsConfirmed]) pendingJson []).1)
      = hexBytes ("46a716c3fb5419a6ac171113b17c6e2ee86bca8e08b55ddee6dc96d1660ba0c0")
  ∧ sha256 (v2HashEvent [] { pendingRecord with confirmationStatus := ascii ("CONFIRMED") })
      = hexBytes ("46a716c3fb5419a6ac171113b17c6e2ee86bca8e08b55ddee6dc96d1660ba0c0") :=
  ⟨by decide, by decide, by decide, by decide, by decide, by decide, by decide, by decide,
   by decide, by decide⟩

/-- C5: the latest v3 fromJSON entry point yields the same record — the
permissioned identity — whether the input JSON carries a permissioned
identity or its public form, and therefore the same digest through the
v3 JSON hashing entry point. -/
theorem c5_identity_normalization (b1 b2 : List Nat) (e : V3Event) (x : List Nat)
    (hx : leadsWith publicMarker x = false)
    (h1 : v3ParsedJSON b1 = some { e with identity := x })
    (h2 : v3ParsedJSON b2 = some { e with identity := publicIdentityFromPermissioned x }) :
    v3FromEventJSONBytes b1 = some { e with identity := x }
  ∧ v3FromEventJSONBytes b2 = some { e with identity := x }
  ∧ (∀ o st, hashEventFromJSONV3 o b1 st = hashEventFromJSONV3 o b2 st) := by
  have hperm : permissionedIdentityFromPublic x = x := by
    simp [permissionedIdentityFromPublic, hx]
  have hpub : permissionedIdentityFromPublic (publicIdentityFromPermissioned x) = x := by
    simp [permissionedIdentityFromPublic, publicIdentityFromPermissioned,
      leadsWith_append, List.drop_left]
  have e1 : v3FromEventJSONBytes b1 = some { e with identity := x } := by
    simp [v3FromEventJSONBytes, h1, hperm]
  have e2 : v3FromEventJSONBytes b2 = some { e with identity := x } := by
    simp [v3FromEventJSONBytes, h2, hpub]
  refine ⟨e1, e2, ?_⟩
  intro o st
  simp [hashEventFromJSONV3, e1, e2]

/-- C5 witness: the repository's own v3 test inputs. -/
theorem c5_witness :
    leadsWith publicMarker (ascii ("assets/1234/events/5678")) = false
  ∧ v3FromEventJSONBytes idJson1
      = some { zeroV3 with identity := ascii ("assets/1234/events/5678") }
  ∧ v3FromEventJSONBytes idJson2
      = some { zeroV3 with identity := ascii ("assets/1234/events/5678") } := by
  have h := c5_identity_normalization idJson1 idJson2 zeroV3
    (ascii ("assets/1234/events/5678")) (by decide) (by decide) (by decide)
  exact ⟨by decide, h.1, h.2.1⟩

/-- C6 amended: the typed-object and JSON v2 entry points produce the
same digest state on the same options whenever the JSON bytes decode to
the event's marshaled record and the options carry neither
public-from-permissioned nor a committed-timestamp override. -/
theorem c6_object_json_agree (o : HashOptions) (e : EventResponse) (b st : List Nat)
    (hb : v2FromEventJSONBytes b = some (v2FromEventResponse e))
    (hp : o.publicFromPermissioned = false) (hc : o.committed = none) :
    hashEventJSONV2 o b st = ((hashEventV2 o e st).2, none) := by
  have hae : applyEventOptions o e = e := by
    simp [applyEventOptions, hp, hc]
  simp [hashEventJSONV2, hp, hb, hashEventV2, hae]

/-- C6 counterexample: with a committed-timestamp override — an option
combination legal on both entry points and without
public-from-permissioned — the typed-object path and the JSON path of
the very same event produce different digests, so the claim fails as
stated. -/
theorem c6_counterexample :
    v2FromEventJSONBytes tinyEventJson = some tinyRecord
  ∧ v2FromEventResponse tinyEvent = tinyRecord
  ∧ overrideOpts.publicFromPermissioned = false
  ∧ (hashEventJSONV2 overrideOpts tinyEventJson []).2 = none
  ∧ sha256 ((hashEventJSONV2 overrideOpts tinyEventJson []).1)
      = hexBytes ("46fc23f837e105a274c94c5a0011e7859cb41fcf77b18ead196eacf045a9830f")
  ∧ sha256 ((hashEventV2 overrideOpts tinyEvent []).2)
      = hexBytes ("606e92c4d4c741ff56c27f07dfd55f168fe7cc59a1b78f45bf41ebd554061f31")
  ∧ hexBytes ("46fc23f837e105a274c94c5a0011e7859cb41fcf77b18ead196eacf045a9830f")
      ≠ hexBytes ("606e92c4d4c741ff56c27f07dfd55f168fe7cc59a1b78f45bf41ebd554061f31") :=
  ⟨by decide, by decide, by decide, by decide, by decide, by decide, by decide⟩

/-- C6 witness. -/
theorem c6_witness :
    v2FromEventJSONBytes tinyEventJson = some (v2FromEventResponse tinyEvent)
  ∧ hashEventJSONV2 (mkOptions []) tinyEventJson [9]
      = ((hashEventV2 (mkOptions []) tinyEvent [9]).2, none) := by
  have h1 : v2FromEventJSONBytes tinyEventJson = some tinyRecord := by decide
  have h2 : v2FromEventResponse tinyEvent = tinyRecord := by decide
  have hb : v2FromEventJSONBytes tinyEventJson = some (v2FromEventResponse tinyEvent) := by
    rw [h1, h2]
  exact ⟨hb, c6_object_json_agree _ tinyEvent _ _ hb (by decide) (by decide)⟩

/-- C3 witness: concrete permuted two-entry maps hash equal. -/
theorem c3_witness :
    v2SameUpToMapOrder permV2a permV2b
  ∧ v3SameUpToMapOrder permV3a permV3b
  ∧ sha256 (v2HashEvent (applyHashingOptions (mkOptions []) []) permV2a)
      = sha256 (v2HashEvent (applyHashingOptions (mkOptions []) []) permV2b)
  ∧ sha256 (v3HashEvent (applyHashingOptions (mkOptions []) []) permV3a)
      = sha256 (v3HashEvent (applyHashingOptions (mkOptions []) []) permV3b) := by
  have h2 : v2SameUpToMapOrder permV2a permV2b := by
    refine ⟨rfl, rfl, ⟨List.Perm.swap _ _ _, by decide⟩, ⟨List.Perm.refl _, by decide⟩,
      rfl, rfl, rfl, rfl, rfl, ⟨List.Perm.refl _, by decide⟩, ⟨List.Perm.refl _, by decide⟩,
      rfl, rfl, rfl⟩
  have h3 : v3SameUpToMapOrder permV3a permV3b := by
    refine ⟨rfl, ⟨List.Perm.refl _, by decide⟩, ⟨List.Perm.swap _ _ _, by decide⟩,
      rfl, rfl, rfl, rfl, rfl, ⟨List.Perm.refl _, by decide⟩, ⟨List.Perm.refl _, by decide⟩,
      rfl⟩
  have h := c3_map_order_determinism (mkOptions []) [] permV2a permV2b permV3a permV3b h2 h3
  exact ⟨h2, h3, h.1, h.2⟩

/-- Binding an optional value into a string field succeeds exactly on
the string shape, with the defaulted reading. -/
theorem getStrField_eq (x : Option Jv) :
    getStrField x = if strOk x then some (strListD x) else none := by
  cases x with
  | none => rfl
  | some v => cases v <;> rfl

/-- Binding an optional value into a map field likewise. -/
theorem getMapField_eq (x : Option Jv) :
    getMapField x = if mapOk x then some (mapListD x) else none := by
  cases x with
  | none => rfl
  | some v => cases v <;> rfl

/-- Push a bind through a guarded some. -/
theorem optionIfBind {α β : Type} (c : Bool) (d : α) (f : α → Option β) :
    (if c then some d else none).bind f = if c then f d else none := by
  cases c <;> rfl

/-- Collapse nested guards into one conjunction. -/
theorem iteIteAnd {β : Type} (c1 c2 : Bool) (x : Option β) :
    (if c1 then (if c2 then x else none) else none) = if c1 && c2 then x else none := by
  cases c1 <;> cases c2 <;> rfl

/-- The operational field-by-field decoder agrees with the declarative
description: a well-shaped value binds to its defaulted field reading
and everything else is an error. -/
theorem bindV2_eq (v : Jv) :
    bindV2 v = if v2ShapeOk v then some (recordOfJv v) else none := by
  cases v with
  | obj o =>
    simp only [bindV2, v2ShapeOk, recordOfJv, getStrField_eq, getMapField_eq,
      optionIfBind, iteIteAnd, Bool.and_assoc]
  | null => rfl
  | boolv b => rfl
  | num l => rfl
  | str s => rfl
  | arr l => rfl

/-- C9: the v2 JSON decoder errors exactly when the bytes are not
valid JSON or the parsed value violates the v2 record shape; on
success the returned record is the snake_case field binding of the
parsed value. -/
theorem c9_json_decode_spec (b : List Nat) :
    (v2FromEventJSONBytes b = none ↔
      parseJson b = none ∨ ∃ v, parseJson b = some v ∧ v2ShapeOk v = false)
  ∧ (∀ e, v2FromEventJSONBytes b = some e →
      ∃ v, parseJson b = some v ∧ v2ShapeOk v = true ∧ e = recordOfJv v) := by
  cases hp : parseJson b with
  | none =>
    constructor
    · simp [v2FromEventJSONBytes, hp]
    · intro e he
      simp [v2FromEventJSONBytes, hp] at he
  | some v =>
    constructor
    · simp only [v2FromEventJSONBytes, hp, Option.some_bind, bindV2_eq]
      cases hs : v2ShapeOk v <;> simp [hs]
    · intro e he
      simp only [v2FromEventJSONBytes, hp, Option.some_bind, bindV2_eq] at he
      cases hs : v2ShapeOk v
      · rw [hs] at he; simp at he
      · rw [hs] at he; simp at he
        exact ⟨v, rfl, hs, he.symm⟩

/-- C9 witness: a concrete decode through the JSON entry point. -/
theorem c9_witness :
    v2FromEventJSONBytes pendingJson = some pendingRecord
  ∧ ∃ v, parseJson pendingJson = some v ∧ v2ShapeOk v = true ∧ pendingRecord = recordOfJv v :=
  ⟨by decide, (c9_json_decode_spec pendingJson).2 pendingRecord (by decide)⟩
end SimpleHash
